import Mathlib

/-!
Verification development for the quasi-static r-z plasma wakefield solver
(`wake_t/physics_models/plasma_wakefields/qs_rz_baxevanis/solver.py`).

The solver is embedded shallowly: particle storage is a struct-of-arrays record
of rational-valued lists, grids are functions from indices to rationals, and the
stateful numpy loops are translated into pure functions.  Machine floats are
modelled by exact rationals, so every identity proved here is an identity of the
algebraic expressions the code computes.
-/

namespace WakeT

/-- Struct-of-arrays particle storage of `PlasmaParticles`, restricted to the
fields that the driver loop in `calculate_wakefields` reads and writes:
radial position `r`, momenta `pr`, `pz`, the relativistic factor `gamma`, the
charge weight `q`, and the per-slice gathered/solved values `a2` (laser
intensity squared at the particle) and `psi` (wakefield potential at the
particle). -/
structure ParticleArrays where
  r : List ℚ
  pr : List ℚ
  pz : List ℚ
  gamma : List ℚ
  q : List ℚ
  a2 : List ℚ
  psi : List ℚ

/-- The closed-form gamma factor computed by `update_gamma_and_pz`
(solver.py line 225): `(1 + pr**2 + a2 + (1+psi)**2) / (2 * (1+psi))`. -/
def gammaOf (pr a2 psi : ℚ) : ℚ :=
  (1 + pr ^ 2 + a2 + (1 + psi) ^ 2) / (2 * (1 + psi))

/-- The closed-form longitudinal momentum computed by `update_gamma_and_pz`
(solver.py line 226): `(1 + pr**2 + a2 - (1+psi)**2) / (2 * (1+psi))`. -/
def pzOf (pr a2 psi : ℚ) : ℚ :=
  (1 + pr ^ 2 + a2 - (1 + psi) ^ 2) / (2 * (1 + psi))

/-- `update_gamma_and_pz(gamma, pz, pr, a2, psi)` (solver.py lines 208-226).
The Python loop runs `i` over `range(pr.shape[0])` and overwrites `gamma[i]`
and `pz[i]` from `pr[i]`, `a2[i]`, `psi[i]` only; entries past the loop bound
keep their old values, and no other array is written.  In the solver all the
arrays have the same length. -/
def update_gamma_and_pz (s : ParticleArrays) : ParticleArrays :=
  { s with
    gamma := (List.range s.gamma.length).map (fun i =>
      if i < s.pr.length then
        gammaOf (s.pr.getD i 0) (s.a2.getD i 0) (s.psi.getD i 0)
      else s.gamma.getD i 0),
    pz := (List.range s.pz.length).map (fun i =>
      if i < s.pr.length then
        pzOf (s.pr.getD i 0) (s.a2.getD i 0) (s.psi.getD i 0)
      else s.pz.getD i 0) }

/-- The freeze step of the driver loop (solver.py lines 163-170):
`idx_keep = np.where(pp.gamma >= max_gamma)` followed by
`pp.pz[idx_keep] = 0.; pp.gamma[idx_keep] = 1.; pp.pr[idx_keep] = 0.`.
The boolean mask is computed from `gamma` before any of the three writes, so
the three updates all use the same mask.  `r` and `q` are not touched. -/
def freeze (s : ParticleArrays) (max_gamma : ℚ) : ParticleArrays :=
  { s with
    pz := (List.range s.pz.length).map (fun i =>
      if max_gamma ≤ s.gamma.getD i 0 then 0 else s.pz.getD i 0),
    gamma := (List.range s.gamma.length).map (fun i =>
      if max_gamma ≤ s.gamma.getD i 0 then 1 else s.gamma.getD i 0),
    pr := (List.range s.pr.length).map (fun i =>
      if max_gamma ≤ s.gamma.getD i 0 then 0 else s.pr.getD i 0) }

/-- Evaluating an element of a list built by mapping over `List.range`. -/
lemma getD_range_map {α : Type} [Inhabited α] (f : ℕ → α) (n i : ℕ) (h : i < n) (d : α) :
    ((List.range n).map f).getD i d = f i := by
  rw [List.getD_eq_getElem?_getD]
  rw [List.getElem?_map]
  rw [List.getElem?_range h]
  rfl

/-- The closed-form gamma is at least `1` whenever `psi > -1` and `a2 ≥ 0`. -/
lemma one_le_gammaOf (pr a2 psi : ℚ) (hpsi : -1 < psi) (ha2 : 0 ≤ a2) :
    1 ≤ gammaOf pr a2 psi := by
  have hu : 0 < 1 + psi := by linarith
  rw [gammaOf, le_div_iff₀ (by positivity)]
  nlinarith [sq_nonneg (1 - (1 + psi)), sq_nonneg pr]

/-- Steps 3-6 of a slice of the driver loop as they act on the particle state
relevant here: after `psi` and `a2` have been gathered/solved into the state,
the solver runs `update_gamma_and_pz` (line 155) and then the freeze step
(lines 166-170).  (`calculate_b_theta_at_particles` in between writes only the
`b_theta` scratch array, none of the fields modelled here.) -/
def sliceAfterSolve (s : ParticleArrays) (max_gamma : ℚ) : ParticleArrays :=
  freeze (update_gamma_and_pz s) max_gamma

/-- The deposition weights of a slice (solver.py lines 180-181):
`w_rho = pp.q / (dr * pp.r * (1 - pp.pz/pp.gamma))` and
`w_chi = w_rho / pp.gamma`, elementwise over the particle arrays. -/
def depositWeights (s : ParticleArrays) (dr : ℚ) : List ℚ × List ℚ :=
  let w_rho := (List.range s.r.length).map (fun i =>
    s.q.getD i 0 / (dr * s.r.getD i 0 * (1 - s.pz.getD i 0 / s.gamma.getD i 0)))
  let w_chi := (List.range s.r.length).map (fun i =>
    w_rho.getD i 0 / s.gamma.getD i 0)
  (w_rho, w_chi)

/-- The weights actually handed to `deposit_plasma_particles` in a slice:
the freeze step (lines 166-170) runs before the weights are computed
(lines 180-181), so the weights are evaluated on the post-freeze state. -/
def sliceWeights (s : ParticleArrays) (max_gamma dr : ℚ) : List ℚ × List ℚ :=
  depositWeights (sliceAfterSolve s max_gamma) dr

/-- The pusher names accepted by the dispatch at solver.py lines 189-197. -/
def recognizedPusher (pusher : String) : Bool :=
  pusher == "ab5" || pusher == "rk4"

/-- The single-quote character (code point 39) that the source format string
`"Plasma pusher ... not recognized."` places around the pusher name. -/
def singleQuote : String :=
  String.mk [Char.ofNat 39]

/-- The error message raised at solver.py lines 196-197: the format string
interpolates the invalid pusher value between single quotes, so the message
names it. -/
def pusherErrorMsg (pusher : String) : String :=
  "Plasma pusher " ++ singleQuote ++ pusher ++ singleQuote ++ " not recognized."

/-- Control-flow model of the main loop of `calculate_wakefields`
(solver.py lines 136-197), folded over the list of step indices
`[0, ..., n_xi-1]`.  Each iteration first performs the slice's
gather/sort/solve/freeze/deposit work (counted as one unit), and only then —
and only when `step < n_xi - 1` — dispatches on the pusher name, raising
`ValueError` for an unrecognized name.  The result is the number of slices
whose work completed, paired with the raised error message, if any. -/
def runSlices (pusher : String) (n_xi : ℕ) : List ℕ → ℕ × Option String
  | [] => (0, none)
  | step :: rest =>
    if step < n_xi - 1 ∧ ¬ recognizedPusher pusher then
      (1, some (pusherErrorMsg pusher))
    else
      let out := runSlices pusher n_xi rest
      (out.1 + 1, out.2)

/-- The loop of `calculate_wakefields` in isolation: slices are processed for
`step = 0, ..., n_xi - 1` (the slice written is `i = -1 - step`, i.e. from the
maximum to the minimum longitudinal coordinate).  A real call only reaches
this loop when the pre-sweep setup (lines 91-134) completes without raising;
`wakefieldsSweep` below composes the two. -/
def mainSweep (pusher : String) (n_xi : ℕ) : ℕ × Option String :=
  runSlices pusher n_xi (List.range n_xi)

/-- The scalar inputs of `calculate_wakefields` together with the beam
macro-particle arrays `beam_part = [x, y, xi, q]`. -/
structure WakeParams where
  beam_x : List ℚ
  beam_y : List ℚ
  beam_xi : List ℚ
  beam_q : List ℚ
  r_max : ℚ
  xi_min : ℚ
  xi_max : ℚ
  n_r : ℤ
  n_xi : ℤ
  ppc : ℤ

/-- The normalized geometry computed before the main loop. -/
structure SweepSetup where
  dr : ℚ
  dxi : ℚ
  r_max_n : ℚ
  xi_min_n : ℚ
  xi_max_n : ℚ

/-- Modelled from the spec: `PlasmaParticles(...)`/`pp.initialize()` (the
particle container, whose module is not under src/) creates a fixed count of
particles from particles-per-cell times the radial extent; the spec assigns it
no failure mode and mentions no input validation, so it is modelled as total. -/
def plasmaParticlesInit (_r_max_plasma _dr : ℚ) (_ppc : ℤ) : Except String Unit :=
  Except.ok ()

/-- The pre-sweep setup of `calculate_wakefields` (solver.py lines 91-134).
`s_d` is the plasma skin depth returned by the external library call
`ge.plasma_skin_depth(n_p * 1e-6)`.  The code performs no validation of the
inputs: the only statements that can raise are the two grid-spacing divisions
`dr = r_max / n_r` and `dxi = (xi_max - xi_min) / (n_xi - 1)`, which raise a
bare `ZeroDivisionError` (naming no input) when the integer denominator is
zero.  The remaining lines (array allocations, the laser-mesh copy, the
particle initialization and the beam-source deposition) raise no validation
error for any input values. -/
def preSweep (p : WakeParams) (s_d : ℚ) : Except String SweepSetup :=
  let r_max := p.r_max / s_d
  let xi_min := p.xi_min / s_d
  let xi_max := p.xi_max / s_d
  if p.n_r = 0 then Except.error "ZeroDivisionError"
  else
    let dr := r_max / (p.n_r : ℚ)
    if p.n_xi = 1 then Except.error "ZeroDivisionError"
    else
      let dxi := (xi_max - xi_min) / ((p.n_xi : ℚ) - 1)
      (plasmaParticlesInit r_max dr p.ppc).map (fun _ =>
        { dr := dr, dxi := dxi, r_max_n := r_max,
          xi_min_n := xi_min, xi_max_n := xi_max })

/-- Whether an `Except` computation completed without raising. -/
def exceptOk {ε α : Type} : Except ε α → Bool
  | Except.ok _ => true
  | Except.error _ => false

/-- A full `calculate_wakefields` call as far as its error control flow is
concerned: the pre-sweep setup of lines 91-134 (which raises a bare
`ZeroDivisionError` when `n_r = 0` or `n_xi = 1`, before any slice work)
followed, only if the setup completed, by the main loop of lines 136-197
(`for step in np.arange(n_xi)`: empty for `n_xi <= 0`, hence `Int.toNat`).
The result is the number of slices whose gather/solve/deposit work completed
together with the raised error message, if any. -/
def wakefieldsSweep (p : WakeParams) (s_d : ℚ) (pusher : String) : ℕ × Option String :=
  match preSweep p s_d with
  | Except.error e => (0, some e)
  | Except.ok _ => mainSweep pusher p.n_xi.toNat

/-- Cell-center radii of the beam-source helper (solver.py line 259):
`r_grid_g = (0.5 + np.arange(n_r)) * dr`. -/
def r_grid_g (dr : ℚ) (k : ℕ) : ℚ :=
  (1 / 2 + (k : ℚ)) * dr

/-- Row-wise cumulative sum along the radial axis
(`np.cumsum(q_dist, axis=1)`, solver.py line 272). -/
def cumsumRow (q_dist : ℕ → ℕ → ℚ) (j k : ℕ) : ℚ :=
  ∑ m ∈ Finset.range (k + 1), q_dist j m

/-- The subtracted charge of the beam-source helper (solver.py lines 264-268):
half the cell's own charge everywhere, plus an extra quarter of it at the
innermost radial cell. -/
def beamSubs (q_dist : ℕ → ℕ → ℚ) (j k : ℕ) : ℚ :=
  q_dist j k / 2 + (if k = 0 then q_dist j 0 / 4 else 0)

/-- The field integration of `calculate_beam_source_from_particles`
(solver.py lines 248-274), as a function of the interior charge distribution
`q_dist` (the output of the external `deposit_3d_distribution` with its guard
cells already stripped, line 253).  The returned `(n_xi+4) x (n_r+4)` array is
zero except on the interior block, where
`b_theta[2:-2, 2:-2] = (np.cumsum(q_dist, axis=1) - subs) * dr / np.abs(r_grid_g)`. -/
def beamBTheta (q_dist : ℕ → ℕ → ℚ) (n_xi n_r : ℕ) (dr : ℚ) (j k : ℕ) : ℚ :=
  if 2 ≤ j ∧ j < n_xi + 2 ∧ 2 ≤ k ∧ k < n_r + 2 then
    (cumsumRow q_dist (j - 2) (k - 2) - beamSubs q_dist (j - 2) (k - 2)) * dr
      / |r_grid_g dr (k - 2)|
  else 0

/-- One axis of `np.gradient(f, h, edge_order=2)` on a uniformly spaced array
of length `n`: second-order central differences in the interior and
second-order one-sided differences at the two edges.  (numpy requires
`n >= edge_order + 1 = 3` here.) -/
def npGradient1D (f : ℕ → ℚ) (n : ℕ) (h : ℚ) (i : ℕ) : ℚ :=
  if i = 0 then (-3 * f 0 + 4 * f 1 - f 2) / (2 * h)
  else if i = n - 1 then (3 * f (n - 1) - 4 * f (n - 2) + f (n - 3)) / (2 * h)
  else (f (i + 1) - f (i - 1)) / (2 * h)

/-- The return value of `calculate_wakefields` (solver.py line 205):
exactly five field grids plus the two coordinate arrays,
`rho, chi, E_r, E_z, B_theta, xi_fld, r_fld`. -/
structure WakeOutputs where
  rho : ℕ → ℕ → ℚ
  chi : ℕ → ℕ → ℚ
  E_r : ℕ → ℕ → ℚ
  E_z : ℕ → ℕ → ℚ
  B_theta : ℕ → ℕ → ℚ
  xi_fld : ℕ → ℚ
  r_fld : ℕ → ℚ

/-- The longitudinal component of `np.gradient(psi[2:-2, 2:-2], dxi, dr,
edge_order=2)` (solver.py line 200), indexed by interior indices. -/
def dxiPsiGrad (psi : ℕ → ℕ → ℚ) (n_xi : ℕ) (dxi : ℚ) (j k : ℕ) : ℚ :=
  npGradient1D (fun j0 => psi (j0 + 2) (k + 2)) n_xi dxi j

/-- The radial component of `np.gradient(psi[2:-2, 2:-2], dxi, dr,
edge_order=2)` (solver.py line 200), indexed by interior indices. -/
def drPsiGrad (psi : ℕ → ℕ → ℚ) (n_r : ℕ) (dr : ℚ) (j k : ℕ) : ℚ :=
  npGradient1D (fun k0 => psi (j + 2) (k0 + 2)) n_r dr k

/-- `E_z` after line 201: guard cells stay zero, the interior is
`-dxi_psi`. -/
def E_z_grid (psi : ℕ → ℕ → ℚ) (n_xi n_r : ℕ) (dxi : ℚ) (j k : ℕ) : ℚ :=
  if 2 ≤ j ∧ j < n_xi + 2 ∧ 2 ≤ k ∧ k < n_r + 2 then
    -(dxiPsiGrad psi n_xi dxi (j - 2) (k - 2))
  else 0

/-- `W_r` after line 202: guard cells stay zero, the interior is
`-dr_psi`. -/
def W_r_grid (psi : ℕ → ℕ → ℚ) (n_xi n_r : ℕ) (dr : ℚ) (j k : ℕ) : ℚ :=
  if 2 ≤ j ∧ j < n_xi + 2 ∧ 2 ≤ k ∧ k < n_r + 2 then
    -(drPsiGrad psi n_r dr (j - 2) (k - 2))
  else 0

/-- `B_theta = b_theta_bar + b_theta_0_mesh` (solver.py line 203),
elementwise over the full guard-cell arrays. -/
def B_theta_grid (b_theta_bar b_theta_0_mesh : ℕ → ℕ → ℚ) (j k : ℕ) : ℚ :=
  b_theta_bar j k + b_theta_0_mesh j k

/-- `E_r = W_r + B_theta` (solver.py line 204), elementwise over the full
guard-cell arrays. -/
def E_r_grid (psi b_theta_bar b_theta_0_mesh : ℕ → ℕ → ℚ) (n_xi n_r : ℕ)
    (dr : ℚ) (j k : ℕ) : ℚ :=
  W_r_grid psi n_xi n_r dr j k + B_theta_grid b_theta_bar b_theta_0_mesh j k

/-- The post-sweep field derivation and return of `calculate_wakefields`
(solver.py lines 199-205), as a function of the grids accumulated during the
sweep (`rho`, `chi`, `psi`, `b_theta_bar`), the precomputed beam field
`b_theta_0_mesh`, and the coordinate arrays. -/
def deriveFields (rho chi psi b_theta_bar b_theta_0_mesh : ℕ → ℕ → ℚ)
    (n_xi n_r : ℕ) (dxi dr : ℚ) (xi_fld r_fld : ℕ → ℚ) : WakeOutputs :=
  { rho := rho
    chi := chi
    E_r := E_r_grid psi b_theta_bar b_theta_0_mesh n_xi n_r dr
    E_z := E_z_grid psi n_xi n_r dxi
    B_theta := B_theta_grid b_theta_bar b_theta_0_mesh
    xi_fld := xi_fld
    r_fld := r_fld }

/-- Concrete one-particle state used to evaluate the gamma/pz update. -/
def exC1 : ParticleArrays :=
  { r := [1], pr := [2], pz := [3], gamma := [4], q := [5], a2 := [6], psi := [7] }

/-- Concrete state with `psi = -2 < -1` at the only particle. -/
def exC2 : ParticleArrays :=
  { r := [1], pr := [0], pz := [0], gamma := [1], q := [1], a2 := [0], psi := [-2] }

/-- Concrete state with `psi > -1` and `a2 ≥ 0` at the only particle. -/
def exC2w : ParticleArrays :=
  { r := [1], pr := [0], pz := [0], gamma := [5], q := [1], a2 := [0], psi := [0] }

/-- Concrete state whose only particle has `gamma` exactly at the threshold
value `10`. -/
def exC7 : ParticleArrays :=
  { r := [1], pr := [2], pz := [3], gamma := [10], q := [4], a2 := [0], psi := [0] }

/-- Concrete two-particle state, one particle above and one below the
threshold value `10`. -/
def exC7w : ParticleArrays :=
  { r := [1, 2], pr := [3, 4], pz := [5, 6], gamma := [20, 1], q := [7, 8],
    a2 := [0, 0], psi := [0, 0] }

/-- Concrete one-particle state used to evaluate the deposition weights. -/
def exC8 : ParticleArrays :=
  { r := [2], pr := [1], pz := [1], gamma := [3], q := [5], a2 := [1], psi := [1] }

/-- Concrete one-particle state used to evaluate the gamma/pz identity. -/
def exC10 : ParticleArrays :=
  { r := [1], pr := [2], pz := [0], gamma := [1], q := [1], a2 := [3], psi := [1] }

/-- Concrete nominal parameters with `n_xi = 2`, used to trace the pusher
dispatch. -/
def exC3 : WakeParams :=
  { beam_x := [0], beam_y := [0], beam_xi := [0], beam_q := [1],
    r_max := 2, xi_min := 0, xi_max := 1, n_r := 8, n_xi := 2, ppc := 2 }

/-- Concrete invalid parameters: the radial extent `r_max = -1` is
non-positive, every other input is nominal and the beam arrays all have
length one. -/
def exC4 : WakeParams :=
  { beam_x := [0], beam_y := [0], beam_xi := [0], beam_q := [1],
    r_max := -1, xi_min := 0, xi_max := 1, n_r := 8, n_xi := 8, ppc := 2 }

/-- Concrete interior charge distribution for the beam-source evaluation. -/
def exQdist : ℕ → ℕ → ℚ :=
  fun j k => (j : ℚ) + (k : ℚ) + 1

/-- Concrete potential grid for the derived-field evaluation. -/
def exPsi : ℕ → ℕ → ℚ :=
  fun j k => (j : ℚ) * (k : ℚ) + (j : ℚ)

/-- Concrete plasma-only magnetic-field grid. -/
def exBbar : ℕ → ℕ → ℚ :=
  fun j k => (j : ℚ) + 2 * (k : ℚ)

/-- Concrete beam-driven magnetic-field grid. -/
def exB0 : ℕ → ℕ → ℚ :=
  fun j k => (j : ℚ) - (k : ℚ)

/-- Concrete auxiliary grid. -/
def exGrid : ℕ → ℕ → ℚ :=
  fun j k => (j : ℚ) + (k : ℚ)

/-- Concrete coordinate array. -/
def exCoord : ℕ → ℚ :=
  fun j => (j : ℚ)

lemma update_gamma_length (s : ParticleArrays) :
    (update_gamma_and_pz s).gamma.length = s.gamma.length := by
  simp [update_gamma_and_pz]

lemma update_pz_length (s : ParticleArrays) :
    (update_gamma_and_pz s).pz.length = s.pz.length := by
  simp [update_gamma_and_pz]

lemma freeze_gamma_length (s : ParticleArrays) (t : ℚ) :
    (freeze s t).gamma.length = s.gamma.length := by
  simp [freeze]

lemma freeze_pz_length (s : ParticleArrays) (t : ℚ) :
    (freeze s t).pz.length = s.pz.length := by
  simp [freeze]

lemma freeze_pr_length (s : ParticleArrays) (t : ℚ) :
    (freeze s t).pr.length = s.pr.length := by
  simp [freeze]

/-- The two closed forms written by `update_gamma_and_pz` differ by exactly
`2 * (1+psi)^2` in the numerator, so their difference collapses to `1 + psi`
whenever the shared denominator is nonzero. -/
lemma gammaOf_sub_pzOf (pr a2 psi : ℚ) (h : psi ≠ -1) :
    gammaOf pr a2 psi - pzOf pr a2 psi = 1 + psi := by
  have hu : (1 + psi) ≠ 0 := by
    intro h0
    exact h (by linarith)
  rw [gammaOf, pzOf, div_sub_div_same]
  field_simp
  ring

/-- C1: for every particle index `i`, `update_gamma_and_pz` sets
`gamma[i] = (1 + pr[i]^2 + a2[i] + (1+psi[i])^2) / (2*(1+psi[i]))` and
`pz[i] = (1 + pr[i]^2 + a2[i] - (1+psi[i])^2) / (2*(1+psi[i]))`; each output
element is a function of `pr[i]`, `a2[i]`, `psi[i]` alone, and no array other
than `gamma` and `pz` is modified. -/
theorem update_gamma_and_pz_correct (s : ParticleArrays) (i : ℕ)
    (hi : i < s.pr.length) (hg : s.gamma.length = s.pr.length)
    (hz : s.pz.length = s.pr.length) :
    (update_gamma_and_pz s).gamma.getD i 0
        = gammaOf (s.pr.getD i 0) (s.a2.getD i 0) (s.psi.getD i 0) ∧
    (update_gamma_and_pz s).pz.getD i 0
        = pzOf (s.pr.getD i 0) (s.a2.getD i 0) (s.psi.getD i 0) ∧
    (update_gamma_and_pz s).r = s.r ∧
    (update_gamma_and_pz s).pr = s.pr ∧
    (update_gamma_and_pz s).q = s.q ∧
    (update_gamma_and_pz s).a2 = s.a2 ∧
    (update_gamma_and_pz s).psi = s.psi := by
  refine ⟨?_, ?_, rfl, rfl, rfl, rfl, rfl⟩
  · show ((List.range s.gamma.length).map _).getD i 0 = _
    rw [getD_range_map _ _ _ (by omega) _, if_pos hi]
  · show ((List.range s.pz.length).map _).getD i 0 = _
    rw [getD_range_map _ _ _ (by omega) _, if_pos hi]

/-- Witness for C1 at a concrete one-particle state. -/
theorem update_gamma_and_pz_correct_witness :
    (update_gamma_and_pz exC1).gamma.getD 0 0 = gammaOf 2 6 7 ∧
    (update_gamma_and_pz exC1).pz.getD 0 0 = pzOf 2 6 7 ∧
    (update_gamma_and_pz exC1).r = exC1.r ∧
    (update_gamma_and_pz exC1).pr = exC1.pr ∧
    (update_gamma_and_pz exC1).q = exC1.q ∧
    (update_gamma_and_pz exC1).a2 = exC1.a2 ∧
    (update_gamma_and_pz exC1).psi = exC1.psi :=
  update_gamma_and_pz_correct exC1 0 (by decide) (by decide) (by decide)

/-- C2 counterexample: the claim asserts `gamma ≥ 1` after the freeze step for
all particles regardless of the `psi` and `a2` values produced earlier in the
slice.  With `pr = 0`, `a2 = 0`, `psi = -2` the update yields
`gamma = (1 + 0 + 0 + 1) / (2 * (-1)) = -1`; since `-1 < 10` the freeze
(threshold `10`) leaves it untouched, so after the freeze step the particle
has `gamma = -1 < 1`, refuting the claim at this concrete input. -/
theorem gamma_ge_one_after_freeze_cex :
    (freeze (update_gamma_and_pz exC2) 10).gamma.getD 0 0 < 1 := by
  norm_num [freeze, update_gamma_and_pz, exC2, gammaOf, List.range_succ]

/-- C2 (amended): after the freeze step every particle satisfies `gamma ≥ 1`,
provided every particle's slice values satisfy `psi > -1` and `a2 ≥ 0`
(the claim's unrestricted quantification over `psi` and `a2` fails,
see the counterexample). -/
theorem gamma_ge_one_after_freeze (s : ParticleArrays) (t : ℚ)
    (hg : s.gamma.length = s.pr.length)
    (hpsi : ∀ i, i < s.pr.length → -1 < s.psi.getD i 0)
    (ha2 : ∀ i, i < s.pr.length → 0 ≤ s.a2.getD i 0) :
    ∀ i, i < (freeze (update_gamma_and_pz s) t).gamma.length →
      1 ≤ (freeze (update_gamma_and_pz s) t).gamma.getD i 0 := by
  intro i hi
  rw [freeze_gamma_length, update_gamma_length] at hi
  have hi2 : i < (update_gamma_and_pz s).gamma.length := by
    rw [update_gamma_length]; exact hi
  have hupd : (update_gamma_and_pz s).gamma.getD i 0
      = gammaOf (s.pr.getD i 0) (s.a2.getD i 0) (s.psi.getD i 0) := by
    show ((List.range s.gamma.length).map _).getD i 0 = _
    rw [getD_range_map _ _ _ hi _, if_pos (by omega)]
  show ((List.range (update_gamma_and_pz s).gamma.length).map _).getD i 0 ≥ 1
  rw [getD_range_map _ _ _ hi2 _]
  by_cases hc : t ≤ (update_gamma_and_pz s).gamma.getD i 0
  · rw [if_pos hc]
  · rw [if_neg hc, hupd]
    exact one_le_gammaOf _ _ _ (hpsi i (by omega)) (ha2 i (by omega))

/-- Witness for the amended C2 at a concrete one-particle state with
`psi = 0 > -1` and `a2 = 0 ≥ 0`, evaluated at particle `0`. -/
theorem gamma_ge_one_after_freeze_witness :
    1 ≤ (freeze (update_gamma_and_pz exC2w) 10).gamma.getD 0 0 :=
  gamma_ge_one_after_freeze exC2w 10 (by decide) (by decide) (by decide) 0 (by decide)

/-- The loop of lines 136-197 with an unrecognized pusher and at least two
steps: the dispatch behind the guard `step < n_xi - 1` raises at the end of
the first iteration, after that slice's work. -/
lemma mainSweep_unrecognized (pusher : String) (n_xi : ℕ)
    (hp : ¬ recognizedPusher pusher) (hn : 2 ≤ n_xi) :
    mainSweep pusher n_xi = (1, some (pusherErrorMsg pusher)) := by
  obtain ⟨m, rfl⟩ : ∃ m, n_xi = m + 2 := ⟨n_xi - 2, by omega⟩
  rw [mainSweep, List.range_succ_eq_map, runSlices]
  rw [if_pos ⟨by omega, hp⟩]

/-- C3 counterexample: the claim demands, for every `n_xi ≥ 1`, a
configuration error naming the invalid pusher before any slice's
gather/solve/deposit work.  Tracing a full call with pusher `foo`: at
`n_xi = 2` the error is raised only after the first slice has completed its
work (work counter `1`, not `0`); at `n_xi = 1` the call fails before the
sweep, but with the bare `ZeroDivisionError` of the `dxi` division
(solver.py line 96), which is not a configuration error and does not name
the pusher — the dispatch is never reached. -/
theorem pusher_error_cex :
    wakefieldsSweep exC3 1 "foo" = (1, some (pusherErrorMsg "foo")) ∧
    wakefieldsSweep { exC3 with n_xi := 1 } 1 "foo"
      = (0, some "ZeroDivisionError") := by
  constructor <;> rfl

/-- C3 (amended): calling `calculate_wakefields` with an unrecognized
pusher name (and `n_r ≠ 0`, so that setup does not fail earlier): for
`n_xi ≥ 2` it raises a `ValueError` naming the invalid value, but only at
the end of the first slice of the sweep, after that slice's
gather/solve/deposit work (work counter `1`); for `n_xi = 1` the call fails
before the sweep with a bare `ZeroDivisionError` from the `dxi` grid-spacing
division — independent of the pusher, which is never inspected. -/
theorem pusher_error_dispatch (p : WakeParams) (s_d : ℚ) (pusher : String)
    (hp : ¬ recognizedPusher pusher) (hr : p.n_r ≠ 0) :
    (2 ≤ p.n_xi →
      wakefieldsSweep p s_d pusher = (1, some (pusherErrorMsg pusher))) ∧
    (p.n_xi = 1 →
      wakefieldsSweep p s_d pusher = (0, some "ZeroDivisionError")) := by
  constructor
  · intro hn
    rw [wakefieldsSweep]
    simp only [preSweep, if_neg hr, if_neg (show ¬ p.n_xi = 1 by omega),
      plasmaParticlesInit, Except.map]
    rw [mainSweep_unrecognized pusher p.n_xi.toNat hp (by omega)]
  · intro hn
    rw [wakefieldsSweep]
    simp only [preSweep, if_neg hr, if_pos hn]

/-- Witness for the amended C3: a full call at the concrete nominal
parameters `exC3` (`n_xi = 2`, `n_r = 8`) with the unrecognized pusher
`bar`. -/
theorem pusher_error_dispatch_witness :
    wakefieldsSweep exC3 1 "bar" = (1, some (pusherErrorMsg "bar")) :=
  (pusher_error_dispatch exC3 1 "bar" (by decide) (by decide)).1 (by decide)

/-- C4 (code bug): `calculate_wakefields` performs no input validation.  At
the concrete invalid input `exC4` (non-positive radial extent `r_max = -1`)
the pre-sweep setup completes without raising any error, so the sweep is
entered and grids are produced; and at `n_r = 0` (non-positive cell count)
the only failure is a bare `ZeroDivisionError` from `dr = r_max / n_r`, not a
descriptive validation error naming the offending input. -/
theorem no_validation_before_sweep :
    exceptOk (preSweep exC4 1) = true ∧
    preSweep { exC4 with r_max := 1, n_r := 0 } 1
      = Except.error "ZeroDivisionError" := by
  constructor <;> rfl

/-- C5: for every interior row `j` and radial cell `k`, the beam magnetic
field returned by `calculate_beam_source_from_particles` equals the
cumulative row sum of the deposited charge up to `k`, minus half the cell's
own charge, minus an extra quarter of the innermost cell's charge when
`k = 0`, multiplied by `dr` and divided by the cell-center radius
`(1/2 + k) * dr`; every guard cell of the returned array is zero. -/
theorem beam_source_formula (q_dist : ℕ → ℕ → ℚ) (n_xi n_r : ℕ) (dr : ℚ)
    (hdr : 0 < dr) (j k : ℕ) (hj : j < n_xi) (hk : k < n_r) :
    beamBTheta q_dist n_xi n_r dr (j + 2) (k + 2)
      = (∑ m ∈ Finset.range (k + 1), q_dist j m - q_dist j k / 2
          - (if k = 0 then q_dist j 0 / 4 else 0)) * dr / ((1 / 2 + (k : ℚ)) * dr)
    ∧ ∀ a b : ℕ, ¬(2 ≤ a ∧ a < n_xi + 2 ∧ 2 ≤ b ∧ b < n_r + 2) →
        beamBTheta q_dist n_xi n_r dr a b = 0 := by
  constructor
  · rw [beamBTheta, if_pos ⟨by omega, by omega, by omega, by omega⟩]
    simp only [Nat.add_sub_cancel]
    have habs : |r_grid_g dr k| = (1 / 2 + (k : ℚ)) * dr := by
      rw [abs_of_pos]
      · rfl
      · rw [r_grid_g]
        positivity
    rw [habs, cumsumRow, beamSubs]
    ring
  · intro a b hab
    rw [beamBTheta, if_neg hab]

/-- Witness for C5 at a concrete charge distribution with `n_xi = 1`,
`n_r = 2`, `dr = 1`, evaluated at interior row `0` and radial cell `1`, and
at the guard cell `(0, 0)`. -/
theorem beam_source_formula_witness :
    beamBTheta exQdist 1 2 1 (0 + 2) (1 + 2)
      = (∑ m ∈ Finset.range (1 + 1), exQdist 0 m - exQdist 0 1 / 2
          - (if (1 : ℕ) = 0 then exQdist 0 0 / 4 else 0)) * 1
          / ((1 / 2 + ((1 : ℕ) : ℚ)) * 1)
    ∧ beamBTheta exQdist 1 2 1 0 0 = 0 := by
  have h := beam_source_formula exQdist 1 2 1 (by norm_num) 0 1 (by norm_num) (by norm_num)
  exact ⟨h.1, h.2 0 0 (by norm_num)⟩

/-- C6: after the sweep, the interior of `E_z` is the negative longitudinal
numerical gradient of the interior of the `psi` grid and the interior of
`W_r` is its negative radial numerical gradient (second-order central
differences, second-order one-sided at the edges); the returned total
magnetic field is `b_theta_bar + b_theta_0_mesh` elementwise; the returned
`E_r` is `W_r + B_theta` elementwise; and the return value consists of
exactly the five field grids `rho, chi, E_r, E_z, B_theta` plus the two
coordinate arrays (the fields of `WakeOutputs`). -/
theorem derived_fields_correct (rho chi psi bbar b0 : ℕ → ℕ → ℚ)
    (n_xi n_r : ℕ) (dxi dr : ℚ) (xi_fld r_fld : ℕ → ℚ)
    (hxi : 3 ≤ n_xi) (hr : 3 ≤ n_r) :
    (∀ j k, j < n_xi → k < n_r →
      (deriveFields rho chi psi bbar b0 n_xi n_r dxi dr xi_fld r_fld).E_z
          (j + 2) (k + 2)
        = -(if j = 0 then
              (-3 * psi 2 (k + 2) + 4 * psi 3 (k + 2) - psi 4 (k + 2)) / (2 * dxi)
            else if j = n_xi - 1 then
              (3 * psi (n_xi + 1) (k + 2) - 4 * psi n_xi (k + 2)
                + psi (n_xi - 1) (k + 2)) / (2 * dxi)
            else (psi (j + 3) (k + 2) - psi (j + 1) (k + 2)) / (2 * dxi))) ∧
    (∀ j k, j < n_xi → k < n_r →
      W_r_grid psi n_xi n_r dr (j + 2) (k + 2)
        = -(if k = 0 then
              (-3 * psi (j + 2) 2 + 4 * psi (j + 2) 3 - psi (j + 2) 4) / (2 * dr)
            else if k = n_r - 1 then
              (3 * psi (j + 2) (n_r + 1) - 4 * psi (j + 2) n_r
                + psi (j + 2) (n_r - 1)) / (2 * dr)
            else (psi (j + 2) (k + 3) - psi (j + 2) (k + 1)) / (2 * dr))) ∧
    (∀ a b, (deriveFields rho chi psi bbar b0 n_xi n_r dxi dr xi_fld r_fld).B_theta a b
        = bbar a b + b0 a b) ∧
    (∀ a b, (deriveFields rho chi psi bbar b0 n_xi n_r dxi dr xi_fld r_fld).E_r a b
        = W_r_grid psi n_xi n_r dr a b
          + (deriveFields rho chi psi bbar b0 n_xi n_r dxi dr xi_fld r_fld).B_theta a b) ∧
    (deriveFields rho chi psi bbar b0 n_xi n_r dxi dr xi_fld r_fld).rho = rho ∧
    (deriveFields rho chi psi bbar b0 n_xi n_r dxi dr xi_fld r_fld).chi = chi ∧
    (deriveFields rho chi psi bbar b0 n_xi n_r dxi dr xi_fld r_fld).xi_fld = xi_fld ∧
    (deriveFields rho chi psi bbar b0 n_xi n_r dxi dr xi_fld r_fld).r_fld = r_fld := by
  refine ⟨?_, ?_, fun a b => rfl, fun a b => rfl, rfl, rfl, rfl, rfl⟩
  · intro j k hj hk
    show E_z_grid psi n_xi n_r dxi (j + 2) (k + 2) = _
    rw [E_z_grid, if_pos ⟨by omega, by omega, by omega, by omega⟩]
    simp only [Nat.add_sub_cancel, dxiPsiGrad, npGradient1D]
    congr 1
    split_ifs with h1 h2
    · norm_num
    · have e1 : n_xi - 1 + 2 = n_xi + 1 := by omega
      have e2 : n_xi - 2 + 2 = n_xi := by omega
      have e3 : n_xi - 3 + 2 = n_xi - 1 := by omega
      rw [e1, e2, e3]
    · have e4 : j + 1 + 2 = j + 3 := by omega
      have e5 : j - 1 + 2 = j + 1 := by omega
      rw [e4, e5]
  · intro j k hj hk
    rw [W_r_grid, if_pos ⟨by omega, by omega, by omega, by omega⟩]
    simp only [Nat.add_sub_cancel, drPsiGrad, npGradient1D]
    congr 1
    split_ifs with h1 h2
    · norm_num
    · have e1 : n_r - 1 + 2 = n_r + 1 := by omega
      have e2 : n_r - 2 + 2 = n_r := by omega
      have e3 : n_r - 3 + 2 = n_r - 1 := by omega
      rw [e1, e2, e3]
    · have e4 : k + 1 + 2 = k + 3 := by omega
      have e5 : k - 1 + 2 = k + 1 := by omega
      rw [e4, e5]

/-- Witness for C6 at concrete grids with `n_xi = n_r = 3` and unit
spacings, evaluated at the interior point `(1, 1)` for `E_z`, at `(0, 2)`
for `W_r`, and at `(0, 0)` for `B_theta` and `E_r`. -/
theorem derived_fields_correct_witness :
    (deriveFields exGrid exGrid exPsi exBbar exB0 3 3 1 1 exCoord exCoord).E_z
        (1 + 2) (1 + 2)
      = -(if 1 = 0 then
            (-3 * exPsi 2 (1 + 2) + 4 * exPsi 3 (1 + 2) - exPsi 4 (1 + 2)) / (2 * 1)
          else if 1 = 3 - 1 then
            (3 * exPsi (3 + 1) (1 + 2) - 4 * exPsi 3 (1 + 2)
              + exPsi (3 - 1) (1 + 2)) / (2 * 1)
          else (exPsi (1 + 3) (1 + 2) - exPsi (1 + 1) (1 + 2)) / (2 * 1)) ∧
    W_r_grid exPsi 3 3 1 (0 + 2) (2 + 2)
      = -(if 2 = 0 then
            (-3 * exPsi (0 + 2) 2 + 4 * exPsi (0 + 2) 3 - exPsi (0 + 2) 4) / (2 * 1)
          else if 2 = 3 - 1 then
            (3 * exPsi (0 + 2) (3 + 1) - 4 * exPsi (0 + 2) 3
              + exPsi (0 + 2) (3 - 1)) / (2 * 1)
          else (exPsi (0 + 2) (2 + 3) - exPsi (0 + 2) (2 + 1)) / (2 * 1)) ∧
    (deriveFields exGrid exGrid exPsi exBbar exB0 3 3 1 1 exCoord exCoord).B_theta 0 0
        = exBbar 0 0 + exB0 0 0 ∧
    (deriveFields exGrid exGrid exPsi exBbar exB0 3 3 1 1 exCoord exCoord).E_r 0 0
        = W_r_grid exPsi 3 3 1 0 0
          + (deriveFields exGrid exGrid exPsi exBbar exB0 3 3 1 1 exCoord exCoord).B_theta 0 0 ∧
    (deriveFields exGrid exGrid exPsi exBbar exB0 3 3 1 1 exCoord exCoord).rho = exGrid ∧
    (deriveFields exGrid exGrid exPsi exBbar exB0 3 3 1 1 exCoord exCoord).chi = exGrid ∧
    (deriveFields exGrid exGrid exPsi exBbar exB0 3 3 1 1 exCoord exCoord).xi_fld = exCoord ∧
    (deriveFields exGrid exGrid exPsi exBbar exB0 3 3 1 1 exCoord exCoord).r_fld = exCoord := by
  have h := derived_fields_correct exGrid exGrid exPsi exBbar exB0 3 3 1 1 exCoord exCoord
    (by norm_num) (by norm_num)
  exact ⟨h.1 1 1 (by norm_num) (by norm_num), h.2.1 0 2 (by norm_num) (by norm_num),
    h.2.2.1 0 0, h.2.2.2.1 0 0, h.2.2.2.2.1, h.2.2.2.2.2.1, h.2.2.2.2.2.2.1,
    h.2.2.2.2.2.2.2⟩

/-- C7 counterexample: the claim says the freeze step freezes exactly the
particles strictly exceeding the gamma threshold and leaves particles that do
not exceed it entirely unchanged.  The code freezes on `gamma >= max_gamma`:
at the concrete state `exC7` the only particle has `gamma = 10`, equal to the
threshold `10` and hence not exceeding it, yet the freeze step changes its
`pr` from `2` to `0` and its `gamma` from `10` to `1`. -/
theorem freeze_strict_threshold_cex :
    ¬ (10 < exC7.gamma.getD 0 0) ∧
    exC7.pr.getD 0 0 = 2 ∧
    (freeze exC7 10).pr.getD 0 0 = 0 ∧
    (freeze exC7 10).gamma.getD 0 0 = 1 := by
  refine ⟨by norm_num [exC7], by norm_num [exC7], ?_, ?_⟩ <;>
    norm_num [freeze, exC7, List.range_succ]

/-- C7 (amended): the freeze step freezes exactly the particles whose gamma
meets or exceeds the threshold (`gamma >= max_gamma`) — setting their `pz`
and `pr` to `0` and their `gamma` to `1` — and modifies nothing else: `r` and
`q` are untouched, particles with `gamma < max_gamma` keep `pz`, `pr`,
`gamma` unchanged, no particle is removed (all lengths are preserved), and
the sum of the charge weights is unchanged. -/
theorem freeze_effect (s : ParticleArrays) (t : ℚ)
    (hz : s.pz.length = s.gamma.length) (hp : s.pr.length = s.gamma.length) :
    (∀ i, i < s.gamma.length →
      (t ≤ s.gamma.getD i 0 →
        (freeze s t).pz.getD i 0 = 0 ∧ (freeze s t).pr.getD i 0 = 0 ∧
        (freeze s t).gamma.getD i 0 = 1) ∧
      (s.gamma.getD i 0 < t →
        (freeze s t).pz.getD i 0 = s.pz.getD i 0 ∧
        (freeze s t).pr.getD i 0 = s.pr.getD i 0 ∧
        (freeze s t).gamma.getD i 0 = s.gamma.getD i 0)) ∧
    (freeze s t).r = s.r ∧
    (freeze s t).q = s.q ∧
    (freeze s t).pz.length = s.pz.length ∧
    (freeze s t).pr.length = s.pr.length ∧
    (freeze s t).gamma.length = s.gamma.length ∧
    ((freeze s t).q).sum = s.q.sum := by
  refine ⟨?_, rfl, rfl, freeze_pz_length s t, freeze_pr_length s t,
    freeze_gamma_length s t, rfl⟩
  intro i hi
  have hgz : (freeze s t).pz.getD i 0
      = if t ≤ s.gamma.getD i 0 then 0 else s.pz.getD i 0 := by
    show ((List.range s.pz.length).map _).getD i 0 = _
    rw [getD_range_map _ _ _ (by omega) _]
  have hgp : (freeze s t).pr.getD i 0
      = if t ≤ s.gamma.getD i 0 then 0 else s.pr.getD i 0 := by
    show ((List.range s.pr.length).map _).getD i 0 = _
    rw [getD_range_map _ _ _ (by omega) _]
  have hgg : (freeze s t).gamma.getD i 0
      = if t ≤ s.gamma.getD i 0 then 1 else s.gamma.getD i 0 := by
    show ((List.range s.gamma.length).map _).getD i 0 = _
    rw [getD_range_map _ _ _ (by omega) _]
  constructor
  · intro hfr
    rw [hgz, hgp, hgg, if_pos hfr, if_pos hfr, if_pos hfr]
    exact ⟨rfl, rfl, rfl⟩
  · intro hlt
    rw [hgz, hgp, hgg, if_neg (not_le.mpr hlt), if_neg (not_le.mpr hlt),
      if_neg (not_le.mpr hlt)]
    exact ⟨rfl, rfl, rfl⟩

/-- Witness for the amended C7 at a concrete two-particle state: particle `0`
(with `gamma = 20 ≥ 10`) is frozen, particle `1` (with `gamma = 1 < 10`) is
unchanged, and `r`, `q`, the lengths and the charge sum are preserved. -/
theorem freeze_effect_witness :
    (freeze exC7w 10).pz.getD 0 0 = 0 ∧
    (freeze exC7w 10).pr.getD 0 0 = 0 ∧
    (freeze exC7w 10).gamma.getD 0 0 = 1 ∧
    (freeze exC7w 10).pz.getD 1 0 = exC7w.pz.getD 1 0 ∧
    (freeze exC7w 10).pr.getD 1 0 = exC7w.pr.getD 1 0 ∧
    (freeze exC7w 10).gamma.getD 1 0 = exC7w.gamma.getD 1 0 ∧
    (freeze exC7w 10).r = exC7w.r ∧
    (freeze exC7w 10).q = exC7w.q ∧
    (freeze exC7w 10).pz.length = exC7w.pz.length ∧
    (freeze exC7w 10).pr.length = exC7w.pr.length ∧
    (freeze exC7w 10).gamma.length = exC7w.gamma.length ∧
    ((freeze exC7w 10).q).sum = exC7w.q.sum := by
  have h := freeze_effect exC7w 10 (by decide) (by decide)
  have h0 := (h.1 0 (by decide)).1 (by decide)
  have h1 := (h.1 1 (by decide)).2 (by decide)
  exact ⟨h0.1, h0.2.1, h0.2.2, h1.1, h1.2.1, h1.2.2, h.2.1, h.2.2.1,
    h.2.2.2.1, h.2.2.2.2.1, h.2.2.2.2.2.1, h.2.2.2.2.2.2⟩

/-- C8: the deposition weights of a slice are computed from the particle
state after the freeze step of that slice:
`w_rho[i] = q[i] / (dr * r[i] * (1 - pz[i]/gamma[i]))` and
`w_chi[i] = w_rho[i] / gamma[i]`, all evaluated on the post-freeze arrays
(where `r` and `q` are themselves unchanged by the update and freeze). -/
theorem deposit_weights_post_freeze (s : ParticleArrays) (t dr : ℚ) (i : ℕ)
    (hi : i < (sliceAfterSolve s t).r.length) :
    (sliceWeights s t dr).1.getD i 0
      = (sliceAfterSolve s t).q.getD i 0
        / (dr * (sliceAfterSolve s t).r.getD i 0
            * (1 - (sliceAfterSolve s t).pz.getD i 0
                / (sliceAfterSolve s t).gamma.getD i 0)) ∧
    (sliceWeights s t dr).2.getD i 0
      = (sliceWeights s t dr).1.getD i 0 / (sliceAfterSolve s t).gamma.getD i 0 ∧
    (sliceAfterSolve s t).r = s.r ∧
    (sliceAfterSolve s t).q = s.q := by
  refine ⟨?_, ?_, rfl, rfl⟩
  · show ((List.range (sliceAfterSolve s t).r.length).map _).getD i 0 = _
    rw [getD_range_map _ _ _ hi _]
  · show ((List.range (sliceAfterSolve s t).r.length).map _).getD i 0 = _
    rw [getD_range_map _ _ _ hi _]
    rfl

/-- Witness for C8 at a concrete one-particle state. -/
theorem deposit_weights_post_freeze_witness :
    (sliceWeights exC8 10 1).1.getD 0 0
      = (sliceAfterSolve exC8 10).q.getD 0 0
        / (1 * (sliceAfterSolve exC8 10).r.getD 0 0
            * (1 - (sliceAfterSolve exC8 10).pz.getD 0 0
                / (sliceAfterSolve exC8 10).gamma.getD 0 0)) ∧
    (sliceWeights exC8 10 1).2.getD 0 0
      = (sliceWeights exC8 10 1).1.getD 0 0 / (sliceAfterSolve exC8 10).gamma.getD 0 0 ∧
    (sliceAfterSolve exC8 10).r = exC8.r ∧
    (sliceAfterSolve exC8 10).q = exC8.q :=
  deposit_weights_post_freeze exC8 10 1 0 (by decide)

/-- C10: immediately after `update_gamma_and_pz`, every particle with
`psi ≠ -1` satisfies `gamma - pz = 1 + psi` exactly (identity of the two
closed forms over the shared denominator `2*(1+psi)`); and after the freeze
step every frozen particle satisfies `gamma - pz = 1 - 0 = 1`. -/
theorem gamma_minus_pz_identity (s : ParticleArrays) (i : ℕ)
    (hi : i < s.pr.length) (hg : s.gamma.length = s.pr.length)
    (hz : s.pz.length = s.pr.length) (hpsi : s.psi.getD i 0 ≠ -1)
    (s2 : ParticleArrays) (t : ℚ) (j : ℕ) (hj : j < s2.gamma.length)
    (hjz : s2.pz.length = s2.gamma.length) (hfroz : t ≤ s2.gamma.getD j 0) :
    (update_gamma_and_pz s).gamma.getD i 0 - (update_gamma_and_pz s).pz.getD i 0
        = 1 + s.psi.getD i 0 ∧
    (freeze s2 t).gamma.getD j 0 - (freeze s2 t).pz.getD j 0 = 1 := by
  constructor
  · have h1 : (update_gamma_and_pz s).gamma.getD i 0
        = gammaOf (s.pr.getD i 0) (s.a2.getD i 0) (s.psi.getD i 0) := by
      show ((List.range s.gamma.length).map _).getD i 0 = _
      rw [getD_range_map _ _ _ (by omega) _, if_pos hi]
    have h2 : (update_gamma_and_pz s).pz.getD i 0
        = pzOf (s.pr.getD i 0) (s.a2.getD i 0) (s.psi.getD i 0) := by
      show ((List.range s.pz.length).map _).getD i 0 = _
      rw [getD_range_map _ _ _ (by omega) _, if_pos hi]
    rw [h1, h2, gammaOf_sub_pzOf _ _ _ hpsi]
  · have h3 : (freeze s2 t).gamma.getD j 0 = 1 := by
      show ((List.range s2.gamma.length).map _).getD j 0 = _
      rw [getD_range_map _ _ _ hj _, if_pos hfroz]
    have h4 : (freeze s2 t).pz.getD j 0 = 0 := by
      show ((List.range s2.pz.length).map _).getD j 0 = _
      rw [getD_range_map _ _ _ (by omega) _, if_pos hfroz]
    rw [h3, h4]
    norm_num

/-- Witness for C10 at concrete one-particle states (`psi = 1 ≠ -1`; the
frozen particle of `exC7` has `gamma = 10 ≥ 10`). -/
theorem gamma_minus_pz_identity_witness :
    (update_gamma_and_pz exC10).gamma.getD 0 0 - (update_gamma_and_pz exC10).pz.getD 0 0
        = 1 + exC10.psi.getD 0 0 ∧
    (freeze exC7 10).gamma.getD 0 0 - (freeze exC7 10).pz.getD 0 0 = 1 :=
  gamma_minus_pz_identity exC10 0 (by decide) (by decide) (by decide)
    (by norm_num [exC10]) exC7 10 0 (by decide) (by decide) (by norm_num [exC7])

end WakeT
